import Mathlib

/-!
Verification of the PDF field-extraction engine in `src/streamlit_app.py`.

The Python program extracts structured fields (quote header, ship-to address,
line items, tax) from sales-quote PDFs for two back-end systems ("Cadre" and
"Voelkr") and assembles normalized output records.  This file gives a shallow
embedding of the extraction logic and proves or refutes the specification's
claims about it.

Modelling conventions:
* Python strings are Lean `String`s; most internal work happens on `List Char`.
* Python `re` patterns are embedded as terms of a small regex AST `Rx`; a
  backtracking matcher `mrun` reproduces the leftmost / greedy / lazy search
  semantics of `re.search`, `re.match` and `re.fullmatch` for the constructs
  the program uses (character classes, bounded greedy and lazy repetition of a
  class, alternation, optional parts, capture groups, word boundaries and the
  end anchor).
* The pdfplumber layer is external I/O; a PDF is modelled as a list of `Page`s
  recording the outcomes of the per-page pdfplumber calls the program makes
  (`extract_text(layout=True)`, `extract_text()`, `extract_tables(...)` for each
  of the two settings variants, and `extract_words(...)`).
* Python floats produced here are exact decimals with two fraction digits, for
  which `float` arithmetic and formatting agree with exact rational arithmetic;
  they are modelled as `ℚ`.
* Fallible Python code is modelled with `Except PyExn` / `Option`.
-/

set_option maxRecDepth 4000

namespace Volkr

/-! ## Python string primitives -/

/-- Python's `\s` / `str.strip()` whitespace class (ASCII). -/
def pyWsChar (c : Char) : Bool :=
  c = ' ' || c = '\t' || c = '\n' || c = '\r' || c = '\x0b' || c = '\x0c'

/-- `str.strip()` on a character list. -/
def pyStripL (s : List Char) : List Char :=
  ((s.dropWhile pyWsChar).reverse.dropWhile pyWsChar).reverse

/-- `str.strip()`. -/
def pyStrip (s : String) : String :=
  String.mk (pyStripL s.data)

/-- Worker for `str.split()` (split on whitespace runs, dropping empties). -/
def pySplitGo : List Char → List Char → List (List Char)
  | [], acc => if acc.isEmpty then [] else [acc.reverse]
  | c :: cs, acc =>
    if pyWsChar c then
      if acc.isEmpty then pySplitGo cs [] else acc.reverse :: pySplitGo cs []
    else pySplitGo cs (c :: acc)

/-- Python `str.split()` with no separator argument. -/
def pySplit (s : String) : List String :=
  (pySplitGo s.data []).map String.mk

/-- Worker for `re.sub(r"\s+", " ", s)`: the flag records whether the previous
character was whitespace (in which case further whitespace is dropped). -/
def collapseWsGo : List Char → Bool → List Char
  | [], _ => []
  | c :: cs, prevWs =>
    if pyWsChar c then
      if prevWs then collapseWsGo cs true else ' ' :: collapseWsGo cs true
    else c :: collapseWsGo cs false

/-- `re.sub(r"\s+", " ", s)`. -/
def pyCollapseWs (s : String) : String :=
  String.mk (collapseWsGo s.data false)

/-- ASCII digit test (`\d` with the inputs at hand). -/
def isDigitC (c : Char) : Bool := '0' ≤ c && c ≤ '9'

def isUpperC (c : Char) : Bool := 'A' ≤ c && c ≤ 'Z'

def isLowerC (c : Char) : Bool := 'a' ≤ c && c ≤ 'z'

def isAlphaC (c : Char) : Bool := isUpperC c || isLowerC c

/-- `int()` on a string of decimal digits. -/
def natOfDigits (l : List Char) : Nat :=
  l.foldl (fun n c => n * 10 + (c.toNat - '0'.toNat)) 0

/-- `str.isdigit()` (nonempty, all digits; inputs here are ASCII). -/
def pyIsDigit (s : String) : Bool :=
  !s.data.isEmpty && s.data.all isDigitC

/-- `f"{n:0wd}"`: decimal digits of `n` left-padded with zeros to width `w`. -/
def padZ (w : Nat) (n : Nat) : String :=
  let d := toString n
  String.mk (List.replicate (w - d.length) '0' ++ d.data)

/-- First index `≥ i` at which `needle` occurs in the remaining hay
(Python `str.index` / `str.find`, also backing the `in` operator). -/
def strIndexAux (needle : List Char) : List Char → Nat → Option Nat
  | [], i => if needle.isEmpty then some i else none
  | c :: t, i =>
    if needle.isPrefixOf (c :: t) then some i else strIndexAux needle t (i + 1)

/-- Python `sub in s`. -/
def pyContains (sub s : String) : Bool :=
  (strIndexAux sub.data s.data 0).isSome

/-- `" ".join(parts)`. -/
def joinSpace (parts : List String) : String :=
  String.intercalate " " parts

/-! ## Regex engine

A backtracking matcher for the fragment of Python `re` used by the program.
All repetitions in the program's patterns apply to single character classes,
which keeps the matcher structurally recursive. -/

/-- Regex AST.  `rep p lo hi lz` is `p{lo,hi}` (with `hi = none` for unbounded)
over a character class, lazy when `lz`; `bnd` is `\b`; `eos` is the
non-MULTILINE `$` (end of input, or just before a final newline). -/
inductive Rx where
  | eps
  | cls (p : Char → Bool)
  | seq (a b : Rx)
  | alt (a b : Rx)
  | opt (a : Rx)
  | rep (p : Char → Bool) (lo : Nat) (hi : Option Nat) (lz : Bool)
  | grp (n : Nat) (a : Rx)
  | bnd
  | eos

/-- Capture assignments; later assignments are consed in front. -/
abbrev Caps := List (Nat × List Char)

/-- `\w` (ASCII word character, the only case exercised by the inputs). -/
def isWordChar (c : Char) : Bool :=
  isAlphaC c || isDigitC c || c = '_'

/-- Length of the maximal prefix of `s` inside the class `p`. -/
def clsMaxRun (p : Char → Bool) : List Char → Nat
  | [] => 0
  | c :: cs => if p c then clsMaxRun p cs + 1 else 0

/-- First success among candidate repetition counts (backtracking order). -/
def firstSome {α : Type} : List Nat → (Nat → Option α) → Option α
  | [], _ => none
  | n :: ns, f =>
    match f n with
    | some a => some a
    | none => firstSome ns f

/-- The character preceding the current position after consuming `consumed`. -/
def lastCharAfter (pv : Option Char) (consumed : List Char) : Option Char :=
  match consumed.getLast? with
  | some c => some c
  | none => pv

/-- CPS backtracking matcher.  `pv` is the character before the current
position (for `\b`), `s` the remaining input, `cp` the captures so far and
`k` the continuation; a failing continuation makes the matcher backtrack. -/
def mrun (re : Rx) (pv : Option Char) (s : List Char) (cp : Caps)
    (k : Option Char → List Char → Caps → Option (List Char × Caps)) :
    Option (List Char × Caps) :=
  match re with
  | .eps => k pv s cp
  | .cls p =>
    match s with
    | [] => none
    | c :: cs => if p c then k (some c) cs cp else none
  | .seq a b => mrun a pv s cp (fun pv1 s1 cp1 => mrun b pv1 s1 cp1 k)
  | .alt a b =>
    match mrun a pv s cp k with
    | some r => some r
    | none => mrun b pv s cp k
  | .opt a =>
    match mrun a pv s cp k with
    | some r => some r
    | none => k pv s cp
  | .rep p lo hi lz =>
    let mx := clsMaxRun p s
    let hiv := match hi with
      | some h => min h mx
      | none => mx
    if hiv < lo then none
    else
      let counts :=
        if lz then (List.range (hiv + 1 - lo)).map (fun j => lo + j)
        else (List.range (hiv + 1 - lo)).map (fun j => hiv - j)
      firstSome counts (fun n => k (lastCharAfter pv (s.take n)) (s.drop n) cp)
  | .grp n a =>
    mrun a pv s cp (fun pv1 s1 cp1 =>
      k pv1 s1 ((n, s.take (s.length - s1.length)) :: cp1))
  | .bnd =>
    let before := match pv with
      | some c => isWordChar c
      | none => false
    let after := match s with
      | c :: _ => isWordChar c
      | [] => false
    if before ≠ after then k pv s cp else none
  | .eos =>
    match s with
    | [] => k pv s cp
    | ['\n'] => k pv s cp
    | _ => none

/-- Result of a successful search: start index, whole match, captures. -/
structure MatchRes where
  gstart : Nat
  g0 : List Char
  caps : Caps
deriving DecidableEq

/-- Try a match anchored at the current position. -/
def runAt (re : Rx) (pv : Option Char) (s : List Char) :
    Option (List Char × Caps) :=
  mrun re pv s [] (fun _ s1 cp => some (s1, cp))

/-- Scan successive start positions (leftmost match wins, as `re.search`). -/
def searchGo (re : Rx) : Option Char → List Char → Nat → Option MatchRes
  | pv, s, i =>
    match runAt re pv s with
    | some (s1, cp) => some ⟨i, s.take (s.length - s1.length), cp⟩
    | none =>
      match s with
      | [] => none
      | c :: cs => searchGo re (some c) cs (i + 1)

/-- `re.search(pattern, s)`. -/
def rsearch (re : Rx) (s : String) : Option MatchRes :=
  searchGo re none s.data 0

/-- Truthiness of `pattern.match(s)` (anchored at the start). -/
def rmatchB (re : Rx) (s : String) : Bool :=
  (runAt re none s.data).isSome

/-- Truthiness of `re.fullmatch(pattern, s)` (must consume all of `s`). -/
def rfullB (re : Rx) (s : String) : Bool :=
  (mrun re none s.data [] (fun _ s1 cp =>
    if s1.isEmpty then some (s1, cp) else none)).isSome

/-- Capture group `n` of a match, as a `List Char` (empty if absent). -/
def capL (n : Nat) (m : MatchRes) : List Char :=
  (m.caps.lookup n).getD []

/-- Capture group `n` of a match, as a `String`. -/
def capS (n : Nat) (m : MatchRes) : String :=
  String.mk (capL n m)

/-- Exact single character. -/
def rlit (c : Char) : Rx := .cls (fun d => d = c)

/-- Single character, case-insensitive (for `re.IGNORECASE` patterns). -/
def rlitI (c : Char) : Rx := .cls (fun d => d.toLower = c.toLower)

/-- Literal string. -/
def rstr (s : String) : Rx := s.data.foldr (fun c r => .seq (rlit c) r) .eps

/-- Literal string, case-insensitive. -/
def rstrI (s : String) : Rx := s.data.foldr (fun c r => .seq (rlitI c) r) .eps

/-- Sequence of regexes. -/
def rcat (l : List Rx) : Rx := l.foldr .seq .eps

/-- `\s*`. -/
def rwsStar : Rx := .rep pyWsChar 0 none false

/-- `\s+`. -/
def rwsPlus : Rx := .rep pyWsChar 1 none false

/-- `.` outside DOTALL mode: any character but a newline. -/
def rdotC (c : Char) : Bool := c ≠ '\n'

/-! ## Token classifiers (module-level compiled patterns) -/

/-- `MONEY_RE = ^\$?[\d,]+\.\d{2,5}$`. -/
def MONEY_RX : Rx :=
  rcat [.opt (rlit '$'), .rep (fun c => isDigitC c || c = ',') 1 none false,
    rlit '.', .rep isDigitC 2 (some 5) false, .eos]

/-- `MONEY_RE.match t` as a boolean. -/
def isMoneyTok (t : String) : Bool := rmatchB MONEY_RX t

/-- `QTY_RE = ^\d+(?:\.\d+)?$`. -/
def QTY_RX : Rx :=
  rcat [.rep isDigitC 1 none false,
    .opt (rcat [rlit '.', .rep isDigitC 1 none false]), .eos]

/-- `QTY_RE.match t` as a boolean. -/
def isQtyTok (t : String) : Bool := rmatchB QTY_RX t

/-- Head class of `ITEM_ID_RE`: `[A-Z0-9]`. -/
def itemIdHeadC (c : Char) : Bool := isUpperC c || isDigitC c

/-- Tail class of `ITEM_ID_RE`: upper alnum, dot, dash, slash, underscore. -/
def itemIdTailC (c : Char) : Bool :=
  itemIdHeadC c || c = '.' || c = '-' || c = '/' || c = '_'

/-- `ITEM_ID_RE`: one head-class char then one or more tail-class chars, anchored. -/
def ITEM_ID_RX : Rx :=
  rcat [.cls itemIdHeadC, .rep itemIdTailC 1 none false, .eos]

/-- `ITEM_ID_RE.match t` as a boolean. -/
def isItemIdTok (t : String) : Bool := rmatchB ITEM_ID_RX t

/-- `ITEM_START_RE`: 1-4 digits, whitespace, an item-code token, then a word boundary (re.ASCII), anchored at the line start. -/
def ITEM_START_RX : Rx :=
  rcat [.grp 1 (.rep isDigitC 1 (some 4) false), rwsPlus,
    .grp 2 (rcat [.cls itemIdHeadC, .rep itemIdTailC 1 none false]), .bnd]

/-- `ITEM_START_RE.match line` as a boolean. -/
def isItemStartLine (line : String) : Bool := rmatchB ITEM_START_RX line

/-- `SUMMARY_STOP_LINE_RE =
`^(Subtotal|Total\b|Grand\s+Total|Freight|Tax\b|Product\b)` (re.IGNORECASE). -/
def SUMMARY_STOP_RX : Rx :=
  .grp 1 (.alt (rstrI "Subtotal")
    (.alt (rcat [rstrI "Total", .bnd])
      (.alt (rcat [rstrI "Grand", rwsPlus, rstrI "Total"])
        (.alt (rstrI "Freight")
          (.alt (rcat [rstrI "Tax", .bnd]) (rcat [rstrI "Product", .bnd]))))))

/-- `SUMMARY_STOP_LINE_RE.match line` as a boolean. -/
def isSummaryStopLine (line : String) : Bool := rmatchB SUMMARY_STOP_RX line

/-- `re.fullmatch(r"[A-Z/]+", t)` as a boolean. -/
def isUpperSlashTok (t : String) : Bool :=
  rfullB (.rep (fun c => isUpperC c || c = '/') 1 none false) t

/-! ## `normalize_date_str` -/

/-- The loose date token `(\d{1,2})[\/\-](\d{1,2})[\/\-](\d{2,4})`. -/
def DATE_LOOSE_RX : Rx :=
  rcat [.grp 1 (.rep isDigitC 1 (some 2) false),
    .cls (fun c => c = '/' || c = '-'),
    .grp 2 (.rep isDigitC 1 (some 2) false),
    .cls (fun c => c = '/' || c = '-'),
    .grp 3 (.rep isDigitC 2 (some 4) false)]

/-- `normalize_date_str` (src lines 104-115): `None`/empty input is passed
through as `None`; otherwise the first loose date token is zero-padded to
`MM/DD/YYYY`, with two-digit years promoted by adding 2000; with no token the
stripped input is returned. -/
def normalize_date_str (dateStr : Option String) : Option String :=
  match dateStr with
  | none => none
  | some s =>
    if s = "" then none
    else
      match rsearch DATE_LOOSE_RX s with
      | none => some (pyStrip s)
      | some m =>
        let mm := natOfDigits (capL 1 m)
        let dd := natOfDigits (capL 2 m)
        let yy := natOfDigits (capL 3 m)
        let yy := if yy < 100 then yy + 2000 else yy
        some (padZ 2 mm ++ "/" ++ padZ 2 dd ++ "/" ++ padZ 4 yy)

/-- The three numeric groups of the first loose date token of `s` (the data
`normalize_date_str` extracts before padding/promotion). -/
def dateGroupsOf (s : String) : Option (Nat × Nat × Nat) :=
  (rsearch DATE_LOOSE_RX s).map
    (fun m => (natOfDigits (capL 1 m), natOfDigits (capL 2 m),
      natOfDigits (capL 3 m)))

/-! ## Cadre header extraction -/

/-- `[A-Za-z .'-]` (contact / salesperson name class). -/
def nameC (c : Char) : Bool :=
  isAlphaC c || c = ' ' || c = '.' || c = Char.ofNat 39 || c = '-'

/-- `Quote\s+(\d+)\s+Date\s+(\d{1,2}/\d{1,2}/\d{4})`. -/
def QUOTE_DATE_RX : Rx :=
  rcat [rstr "Quote", rwsPlus, .grp 1 (.rep isDigitC 1 none false), rwsPlus,
    rstr "Date", rwsPlus,
    .grp 2 (rcat [.rep isDigitC 1 (some 2) false, rlit '/',
      .rep isDigitC 1 (some 2) false, rlit '/', .rep isDigitC 4 (some 4) false])]

/-- `Customer\s+(\d+)`. -/
def CUSTOMER_RX : Rx :=
  rcat [rstr "Customer", rwsPlus, .grp 1 (.rep isDigitC 1 none false)]

/-- `Contact\s+([A-Za-z .'-]+)`. -/
def CONTACT_RX : Rx :=
  rcat [rstr "Contact", rwsPlus, .grp 1 (.rep nameC 1 none false)]

/-- `Salesperson\s+([A-Za-z .'-]+)`. -/
def SALES_RX : Rx :=
  rcat [rstr "Salesperson", rwsPlus, .grp 1 (.rep nameC 1 none false)]

/-- `Quoted For:\s*(.+?)\s+Ship To:` (lazy capture of the company name). -/
def QUOTED_FOR_RX : Rx :=
  rcat [rstr "Quoted For:", rwsStar, .grp 1 (.rep rdotC 1 none true), rwsPlus,
    rstr "Ship To:"]

/-- `[A-Za-z0-9 .#-]` (street address tail class). -/
def addrC (c : Char) : Bool :=
  isAlphaC c || isDigitC c || c = ' ' || c = '.' || c = '#' || c = '-'

/-- `(\d{3,6}\s+[A-Za-z0-9 .#-]+)` (street address). -/
def ADDR_RX : Rx :=
  .grp 1 (rcat [.rep isDigitC 3 (some 6) false, rwsPlus,
    .rep addrC 1 none false])

/-- `[A-Za-z .]` (city class). -/
def cityC (c : Char) : Bool := isAlphaC c || c = ' ' || c = '.'

/-- `([A-Za-z .]+),\s*([A-Z]{2})\s+(\d{5})(?:-\d{4})?` (city/state/zip). -/
def CITY_STATE_ZIP_RX : Rx :=
  rcat [.grp 1 (.rep cityC 1 none false), rlit ',', rwsStar,
    .grp 2 (.rep isUpperC 2 (some 2) false), rwsPlus,
    .grp 3 (.rep isDigitC 5 (some 5) false),
    .opt (rcat [rlit '-', .rep isDigitC 4 (some 4) false])]

/-- `Quote Good Through\s+(\d{1,2}/\d{1,2}/\d{4})`. -/
def VALID_DATE_RX : Rx :=
  rcat [rstr "Quote Good Through", rwsPlus,
    .grp 1 (rcat [.rep isDigitC 1 (some 2) false, rlit '/',
      .rep isDigitC 1 (some 2) false, rlit '/', .rep isDigitC 4 (some 4) false])]

/-- The `header` dict built by `extract_header_info_cadre`: absent keys are
`none`. -/
structure Header where
  QuoteNumber : Option String := none
  QuoteDate : Option String := none
  CustomerNumber : Option String := none
  FirstName : Option String := none
  LastName : Option String := none
  ReferralManager : Option String := none
  Company : Option String := none
  Address : Option String := none
  City : Option String := none
  State : Option String := none
  ZipCode : Option String := none
  Country : Option String := none
  QuoteValidDate : Option String := none
deriving DecidableEq

/-- Quote number / date search (src lines 147-150). -/
def stepQuote (t : String) (h : Header) : Header :=
  match rsearch QUOTE_DATE_RX t with
  | some m => { h with QuoteNumber := some (capS 1 m), QuoteDate := some (capS 2 m) }
  | none => h

/-- Customer number search (src lines 152-154). -/
def stepCustomer (t : String) (h : Header) : Header :=
  match rsearch CUSTOMER_RX t with
  | some m => { h with CustomerNumber := some (capS 1 m) }
  | none => h

/-- Contact name search and first/last split (src lines 156-164). -/
def stepContact (t : String) (h : Header) : Header :=
  match rsearch CONTACT_RX t with
  | some m =>
    let parts := pySplit (pyStrip (capS 1 m))
    match parts with
    | [] => h
    | [p] => { h with FirstName := some p }
    | p :: q :: rest =>
      { h with FirstName := some p, LastName := some (joinSpace (q :: rest)) }
  | none => h

/-- Salesperson search (src lines 166-168). -/
def stepSales (t : String) (h : Header) : Header :=
  match rsearch SALES_RX t with
  | some m => { h with ReferralManager := some (pyStrip (capS 1 m)) }
  | none => h

/-- Address block extraction (src lines 170-193): only runs when both
`"Quoted For:"` and `"Quote Good Through"` occur in the text; the block between
those markers is searched for company, street and city/state/zip, and the
country is set when `"United States of America"` occurs in the block. -/
def stepAddr (t : String) (h : Header) : Header :=
  match strIndexAux ("Quoted For:").data t.data 0,
      strIndexAux ("Quote Good Through").data t.data 0 with
  | some stt, some ed =>
    let addrBlock : String := String.mk ((t.data.drop stt).take (ed - stt))
    let h :=
      match rsearch QUOTED_FOR_RX addrBlock with
      | some m => { h with Company := some (pyStrip (capS 1 m)) }
      | none => h
    let h :=
      match rsearch ADDR_RX addrBlock with
      | some m => { h with Address := some (pyStrip (capS 1 m)) }
      | none => h
    let h :=
      match rsearch CITY_STATE_ZIP_RX addrBlock with
      | some m =>
        { h with
            City := some (pyStrip (capS 1 m))
            State := some (capS 2 m)
            ZipCode := some (capS 3 m) }
      | none => h
    if pyContains "United States of America" addrBlock then
      { h with Country := some "USA" }
    else h
  | _, _ => h

/-- Quote-good-through date search (src lines 195-197). -/
def stepValid (t : String) (h : Header) : Header :=
  match rsearch VALID_DATE_RX t with
  | some m => { h with QuoteValidDate := some (capS 1 m) }
  | none => h

/-- `extract_header_info_cadre` (src lines 144-199). -/
def extract_header_info_cadre (fullText : String) : Header :=
  stepValid fullText (stepAddr fullText (stepSales fullText
    (stepContact fullText (stepCustomer fullText (stepQuote fullText {})))))

/-- The six address-related header fields, as a tuple. -/
def addrFields (h : Header) :
    Option String × Option String × Option String × Option String ×
      Option String × Option String :=
  (h.Company, h.Address, h.City, h.State, h.ZipCode, h.Country)

/-! ## Tax amount extraction and money values

The parsed amounts are nonnegative decimals with exactly two fraction digits;
on such values Python `float` arithmetic, the `abs(v) >= 0.005` test and
`f"{v:,.2f}"` formatting agree exactly with rational arithmetic, so they are
modelled as `ℚ`. -/

/-- The pattern of a tax amount: one or more digits/commas, a dot, two digits
(the capture of `\bTax\s+([\d,]+\.\d{2})\b`). -/
def TAX_RX : Rx :=
  rcat [.bnd, rstr "Tax", rwsPlus,
    .grp 1 (rcat [.rep (fun c => isDigitC c || c = ',') 1 none false,
      rlit '.', .rep isDigitC 2 (some 2) false]), .bnd]

/-- Python `float()` on an unsigned decimal literal (digits with an optional
fractional part); the inputs here never carry signs, exponents or `inf`/`nan`,
so those forms are omitted. -/
def floatCore (l : List Char) : Option ℚ :=
  match l.span (fun c => c ≠ '.') with
  | (ip, []) =>
    if !ip.isEmpty && ip.all isDigitC then some ((natOfDigits ip : ℚ)) else none
  | (ip, _dot :: fp) =>
    if ip.all isDigitC && fp.all isDigitC && (!ip.isEmpty || !fp.isEmpty) then
      some ((natOfDigits ip : ℚ) + (natOfDigits fp : ℚ) / (10 : ℚ) ^ fp.length)
    else none

/-- Python `float()` after stripping whitespace and an optional sign. -/
def floatLit (l : List Char) : Option ℚ :=
  match pyStripL l with
  | '+' :: r => floatCore r
  | '-' :: r => (floatCore r).map Neg.neg
  | r => floatCore r

/-- The tax capture in cents: the capture of `TAX_RX`, commas removed, always
has the shape `digits* . digit digit`, on which Python `float()` returns
exactly `cents / 100`; working in integer cents keeps the value exactly
representable (the catch-all arm is unreachable for genuine captures). -/
def taxCentsOf (l : List Char) : Option Nat :=
  match l.span (fun c => c ≠ '.') with
  | (ip, _dot :: fp) =>
    if ip.all isDigitC && fp.all isDigitC && (!ip.isEmpty || !fp.isEmpty) then
      some (natOfDigits ip * 100 + natOfDigits fp)
    else none
  | (_, []) => none

/-- `extract_tax_amount` in cents (src lines 202-220): restrict the search to
the block between the first `"Product"` and the following `"Total"` when both
occur (falling back to the whole text when the `"Total"` lookup from that
start raises), search for the `Tax` amount there and then in the whole text,
and parse the capture with commas removed. -/
def extract_tax_cents (fullText : String) : Option Nat :=
  let block : String :=
    if pyContains "Product" fullText && pyContains "Total" fullText then
      match strIndexAux ("Product").data fullText.data 0 with
      | some stt =>
        match strIndexAux ("Total").data (fullText.data.drop stt) 0 with
        | some off => String.mk ((fullText.data.drop stt).take off)
        | none => fullText
      | none => fullText
    else fullText
  let parse : MatchRes → Option Nat := fun m =>
    taxCentsOf ((capL 1 m).filter (fun c => c ≠ ','))
  match rsearch TAX_RX block with
  | some m => parse m
  | none =>
    match rsearch TAX_RX fullText with
    | some m => parse m
    | none => none

/-- `extract_tax_amount` as the rational value `float()` returns (exactly
`cents / 100` for these two-decimal captures). -/
def extract_tax_amount (fullText : String) : Option ℚ :=
  (extract_tax_cents fullText).map (fun c => (c : ℚ) / 100)

/-- Comma-group a reversed digit list in threes (worker for `f"{v:,.2f}"`). -/
def chunk3 : List Char → List Char
  | [] => []
  | [a] => [a]
  | [a, b] => [a, b]
  | [a, b, c] => [a, b, c]
  | a :: b :: c :: d :: rest => a :: b :: c :: ',' :: chunk3 (d :: rest)

/-- `f"{v:,.2f}"` on an exact value of `cents / 100`: comma-grouped integer
part, dot, two fraction digits. -/
def fmtCents (cents : Nat) : String :=
  let ip := cents / 100
  let fr := cents % 100
  String.mk ((chunk3 (toString ip).data.reverse).reverse) ++ "." ++ padZ 2 fr

/-- `f"{v:,.2f}"` for the nonnegative two-decimal values produced by
`extract_tax_amount` (on which float rounding is the identity). -/
def fmtMoneyComma (v : ℚ) : String :=
  fmtCents ((v * 100).num.toNat)

/-- `_safe_float` (src lines 223-229): empty/falsy input gives `None`;
otherwise `$` and `,` are stripped and the result parsed as a float, with
failures giving `None`. -/
def safeFloat (s : String) : Option ℚ :=
  if s = "" then none
  else floatLit (s.data.filter (fun c => c ≠ '$' && c ≠ ','))

/-! ## Line items: shared item record -/

/-- A fully-stringified line item (the dict shape used by the table strategy,
the cleaned word strategy and the synthetic tax row). -/
structure Item where
  line_no : String
  item_id : String
  qty : String
  unit_price : String
  total : String
  description : String
deriving DecidableEq

/-! ## Line items: table strategy -/

/-- `_clean_cell` (src lines 232-235). -/
def cleanCell (x : Option String) : String :=
  match x with
  | none => ""
  | some s => pyStrip (String.mk (s.data.map (fun c => if c = '\n' then ' ' else c)))

/-- `_row_has_item_signature` (src lines 238-243). -/
def rowHasItemSignature (cells : List String) : Bool :=
  match cells with
  | c0 :: c1 :: _ => pyIsDigit (pyStrip c0) && isItemIdTok (pyStrip c1)
  | _ => false

/-- A token is "wordy" when it is neither a quantity, money, an all-caps/slash
run nor all digits (the shared description filter). -/
def isWordyTok (t : String) : Bool :=
  !(isQtyTok t || isMoneyTok t || isUpperSlashTok t || pyIsDigit t)

/-- `_parse_item_from_table_row` (src lines 246-284).  Only called on rows that
passed `_row_has_item_signature` (at least two cells); the catch-all arm is
unreachable at the call sites. -/
def parseItemFromTableRow (cells : List String) : Item :=
  match cells with
  | c0 :: c1 :: rest =>
    let tokens := (rest.map pySplit).flatten
    let qty := (tokens.find? isQtyTok).getD ""
    let money := tokens.filter isMoneyTok
    let unitPrice :=
      if money.length ≥ 2 then (money.reverse.drop 1).headD ""
      else if money.length = 1 then money.reverse.headD "" else ""
    let total := money.reverse.headD ""
    let descParts := rest.filterMap (fun c =>
      let cClean := pyStrip c
      if cClean = "" then none
      else if (pySplit cClean).filter isWordyTok ≠ [] then some cClean else none)
    { line_no := pyStrip c0, item_id := pyStrip c1, qty := qty,
      unit_price := unitPrice, total := total,
      description := pyStrip (joinSpace descParts) }
  | _ =>
    { line_no := "", item_id := "", qty := "", unit_price := "", total := "",
      description := "" }

/-- `_line_is_desc_continuation` (src lines 287-299). -/
def lineIsDescContinuation (line : String) : Bool :=
  if line = "" then false
  else if isItemStartLine line then false
  else if isSummaryStopLine line then false
  else (pySplit line).any isWordyTok

/-- The `while r < len(str_rows)` loop of `extract_line_items_by_tables`
(src lines 342-362): summary rows are skipped; an item row is parsed, and when
its description is empty the following row is merged in as a continuation when
it qualifies (consuming it). -/
def tableRowsLoop : List (List String) → List Item
  | [] => []
  | cells :: rest =>
    if !cells.isEmpty && isSummaryStopLine (pyStrip (cells.headD "")) then
      tableRowsLoop rest
    else if rowHasItemSignature cells then
      let item := parseItemFromTableRow cells
      match rest with
      | [] => [item]
      | nxtCells :: rest2 =>
        if item.description = "" then
          let nxtLine := pyStrip (joinSpace (nxtCells.filter (fun c => c ≠ "")))
          if lineIsDescContinuation nxtLine then
            { item with description := nxtLine } :: tableRowsLoop rest2
          else item :: tableRowsLoop (nxtCells :: rest2)
        else item :: tableRowsLoop (nxtCells :: rest2)
    else tableRowsLoop rest

/-- A pdfplumber table: rows of cells, either possibly `None`. -/
abbrev PTable := List (Option (List (Option String)))

/-- Items of one extracted table (cells cleaned, `None` rows treated as
empty, as in src line 340). -/
def tableItems (table : PTable) : List Item :=
  tableRowsLoop (table.map (fun rawRow => (rawRow.getD []).map cleanCell))

/-! ## The pdfplumber page model

pdfplumber is external I/O: a `Page` records the outcomes of the calls the
program makes on it.  `extract_text` may return text, return `None`, or raise;
`extract_tables` (per settings variant) either returns a table list (`none`
models both a raise, which src line 332-335 turns into `[]`, and a `None`
return, which `or []` turns into `[]`); `extract_words` returns a word list. -/

/-- Python exceptions distinguished by the program. -/
inductive PyExn where
  | typeError
  | otherExn
  | valueError (msg : String)
deriving DecidableEq

/-- Outcome of a `page.extract_text(...)` call. -/
inductive TextOutcome where
  | ok (t : Option String)
  | raisesTypeError
  | raisesOther
deriving DecidableEq

/-- A word from `page.extract_words(...)`: text and coordinates. -/
structure Word where
  text : String
  x0 : ℚ
  top : ℚ
deriving DecidableEq

/-- A pdfplumber page, as seen by the program. -/
structure Page where
  textLayout : TextOutcome
  textPlain : TextOutcome
  tablesLines : Option (List PTable)
  tablesText : Option (List PTable)
  words : List Word
deriving DecidableEq

/-- A PDF, as seen by the program: its ordered pages. -/
abbrev PdfDoc := List Page

/-! ## `extract_full_text` -/

/-- The per-page text of `extract_full_text` (src lines 122-126): layout mode
first, falling back to plain mode only on `TypeError`; a `None` text becomes
`""`; any other exception propagates. -/
def pageText (p : Page) : Except PyExn String :=
  match p.textLayout with
  | .ok t => .ok (t.getD "")
  | .raisesTypeError =>
    match p.textPlain with
    | .ok t => .ok (t.getD "")
    | .raisesTypeError => .error .typeError
    | .raisesOther => .error .otherExn
  | .raisesOther => .error .otherExn

/-- `extract_full_text` (src lines 118-127): concatenate each page's text plus
a newline; a page exception other than the layout-mode `TypeError` aborts. -/
def extract_full_text : PdfDoc → Except PyExn String
  | [] => .ok ""
  | p :: ps =>
    match pageText p with
    | .error e => .error e
    | .ok t =>
      match extract_full_text ps with
      | .error e => .error e
      | .ok rest => .ok (t ++ "\n" ++ rest)

/-! ## Line items: table strategy over pages -/

/-- `extract_line_items_by_tables` (src lines 302-367): per page, try the
"lines" settings variant over all its tables; if that produced items for the
page, skip the "text" variant, else try it. -/
def extract_line_items_by_tables (pdf : PdfDoc) : List Item :=
  (pdf.map (fun p =>
    let fromLines := ((p.tablesLines.getD []).map tableItems).flatten
    if !fromLines.isEmpty then fromLines
    else ((p.tablesText.getD []).map tableItems).flatten)).flatten

/-! ## Line items: word-flow strategy -/

/-- Python `round()` on an exact rational: round-half-to-even. -/
def pyRoundQ (q : ℚ) : ℤ :=
  let n := ⌊q⌋
  let frac := q - (n : ℚ)
  if frac < 1/2 then n
  else if (1/2 : ℚ) < frac then n + 1
  else if n % 2 = 0 then n else n + 1

/-- Insert into a list sorted ascending by `x0`, after equal keys (stable). -/
def insertByX0 (w : Word) : List Word → List Word
  | [] => [w]
  | y :: ys => if w.x0 < y.x0 then w :: y :: ys else y :: insertByX0 w ys

/-- Python `sorted(ws, key=lambda x: x["x0"])` (stable ascending). -/
def sortByX0 (ws : List Word) : List Word :=
  ws.foldl (fun acc w => insertByX0 w acc) []

/-- Insert into an ascending list of rationals. -/
def insertQ (x : ℚ) : List ℚ → List ℚ
  | [] => [x]
  | y :: ys => if x ≤ y then x :: y :: ys else y :: insertQ x ys

/-- Ascending sort of rationals. -/
def sortQ : List ℚ → List ℚ
  | [] => []
  | x :: xs => insertQ x (sortQ xs)

/-- Collapse adjacent duplicates of a sorted list (`sorted(keys)` over the
distinct bucket keys). -/
def uniqSorted : List ℚ → List ℚ
  | [] => []
  | [k] => [k]
  | k :: k2 :: ks =>
    if k = k2 then uniqSorted (k2 :: ks) else k :: uniqSorted (k2 :: ks)

/-- `_group_words_into_rows` (src lines 370-375): bucket words by their
quantized vertical position and sort each bucket by `x0`. -/
def groupWordsIntoRows (words : List Word) (yTol : ℚ) : List (List Word) :=
  let keyOf : Word → ℚ := fun w => (pyRoundQ (w.top / yTol) : ℚ) * yTol
  let keys := uniqSorted (sortQ (words.map keyOf))
  keys.map (fun ky => sortByX0 (words.filter (fun w => keyOf w = ky)))

/-- `_row_to_text` (src lines 378-379). -/
def rowToText (rowWords : List Word) : String :=
  pyStrip (joinSpace (rowWords.map Word.text))

/-- The visual lines of the whole document (src lines 406-418). -/
def visualLines (pdf : PdfDoc) : List String :=
  (pdf.map (fun p =>
    ((groupWordsIntoRows p.words (5/2)).map rowToText).filter
      (fun t => t ≠ ""))).flatten

/-- The item dict of `_parse_item_row_tokens` (src lines 382-402), before the
description is attached at flush time. -/
structure RawItem where
  line_no : String
  item_id : String
  qty : Option String
  unit_price : Option String
  total : Option String
deriving DecidableEq

/-- `_parse_item_row_tokens` (src lines 382-402).  Only called with at least
two tokens (guarded at src line 443); the catch-all arm is unreachable. -/
def parseItemRowTokens (tokens : List String) : RawItem :=
  match tokens with
  | t0 :: t1 :: after =>
    let qty := after.find? isQtyTok
    let money := after.filter isMoneyTok
    let total := money.reverse.head?
    let unitPrice := if money.length ≥ 2 then (money.reverse.drop 1).head? else none
    { line_no := t0
      item_id := t1
      qty := qty
      unit_price := unitPrice
      total := total }
  | _ =>
    { line_no := ""
      item_id := ""
      qty := none
      unit_price := none
      total := none }

/-- The money-backfill lookahead (src lines 448-463): scan up to four
following lines, stopping at a new item or summary line, taking the last money
token as the still-missing total and the second-to-last as the still-missing
unit price. -/
def backfillMoney : RawItem → List String → RawItem
  | c, [] => c
  | c, nxtRaw :: rest =>
    let nxt := pyStrip nxtRaw
    if isItemStartLine nxt || isSummaryStopLine nxt then c
    else
      let nxtMoney := (pySplit nxt).filter isMoneyTok
      if !nxtMoney.isEmpty then
        let c1 :=
          if c.total.isNone then { c with total := nxtMoney.reverse.head? }
          else c
        let c2 :=
          if c1.unit_price.isNone && nxtMoney.length ≥ 2 then
            { c1 with unit_price := (nxtMoney.reverse.drop 1).head? }
          else c1
        backfillMoney c2 rest
      else backfillMoney c rest

/-- `flush()` (src lines 424-430): emit the current item, if any, paired with
its accumulated description. -/
def flushPair (cur : Option RawItem) (descs : List String) :
    List (RawItem × String) :=
  match cur with
  | some c => [(c, pyStrip (joinSpace descs))]
  | none => []

/-- The `while i < len(visual_lines)` state machine of
`extract_line_items_by_words` (src lines 432-478): a summary line flushes and
stops; an item-start line flushes, parses the tokens and runs the money
backfill over the next four lines (which are not consumed); other lines are
absorbed as description (up to three wordy lines) while an item is open. -/
def wordsLoop : List String → Option RawItem → List String →
    List (RawItem × String)
  | [], cur, descs => flushPair cur descs
  | raw :: rest, cur, descs =>
    let line := pyStrip raw
    if isSummaryStopLine line then flushPair cur descs
    else if isItemStartLine line then
      let flushed := flushPair cur descs
      let tokens := pySplit line
      if tokens.length ≥ 2 then
        let c0 := parseItemRowTokens tokens
        let c1 :=
          if c0.unit_price.isNone || c0.total.isNone then
            backfillMoney c0 (rest.take 4)
          else c0
        flushed ++ wordsLoop rest (some c1) []
      else flushed ++ wordsLoop rest none []
    else
      let descs1 :=
        if cur.isSome then
          if (pySplit line).any isWordyTok && descs.length < 3 then
            descs ++ [line]
          else descs
        else descs
      wordsLoop rest cur descs1

/-- `extract_line_items_by_words` (src lines 405-494): run the state machine
over the visual lines, drop items without an item id, and stringify. -/
def extract_line_items_by_words (pdf : PdfDoc) : List Item :=
  (wordsLoop (visualLines pdf) none []).filterMap (fun pr =>
    if pr.1.item_id = "" then none
    else some
      { line_no := pr.1.line_no, item_id := pr.1.item_id,
        qty := pr.1.qty.getD "", unit_price := pr.1.unit_price.getD "",
        total := pr.1.total.getD "", description := pr.2 })

/-! ## Hybrid strategy and deduplication -/

/-- The composite deduplication key `(line_no, item_id, total)`. -/
def itemKey (it : Item) : String × String × String :=
  (it.line_no, it.item_id, it.total)

/-- The `seen`-set loop of `extract_line_items_hybrid` (src lines 502-509):
keep an item when its key has not been seen, first occurrence wins. -/
def dedupAux : List Item → List (String × String × String) → List Item
  | [], _ => []
  | it :: rest, seen =>
    if itemKey it ∈ seen then dedupAux rest seen
    else it :: dedupAux rest (itemKey it :: seen)

/-- Deduplication by the composite key, first occurrence wins. -/
def dedupItems (items : List Item) : List Item :=
  dedupAux items []

/-- The raw item list `extract_line_items_hybrid` deduplicates: the table
strategy's items, or the word strategy's when the former found none
(src lines 498-500). -/
def rawHybridItems (pdf : PdfDoc) : List Item :=
  let items := extract_line_items_by_tables pdf
  if items.isEmpty then extract_line_items_by_words pdf else items

/-- `extract_line_items_hybrid` (src lines 497-510). -/
def extract_line_items_hybrid (pdf : PdfDoc) : List Item :=
  dedupItems (rawHybridItems pdf)

/-! ## Cadre record assembly -/

/-- Cell values of an output record: a string, a number, or Python `None`. -/
inductive Val where
  | vstr (s : String)
  | vnum (q : ℚ)
  | vnone
deriving DecidableEq

/-- Lift an optional string into a cell value (`None` for absent). -/
def ostr : Option String → Val
  | some s => .vstr s
  | none => .vnone

/-- Lift an optional number into a cell value (`None` for absent). -/
def onum : Option ℚ → Val
  | some q => .vnum q
  | none => .vnone

/-- An output record: an ordered key/value dict. -/
abbrev Row := List (String × Val)

/-- The keys of a record, in order. -/
def rowKeys (r : Row) : List String := r.map Prod.fst

/-- `CADRE_COLUMNS` (src lines 31-57). -/
def CADRE_COLUMNS : List String :=
  ["ReferralManager", "ReferralEmail", "Brand", "QuoteNumber", "QuoteDate",
   "Company", "FirstName", "LastName", "ContactEmail", "ContactPhone",
   "Address", "County", "City", "State", "ZipCode", "Country", "item_id",
   "item_desc", "UnitPrice", "TotalSales", "QuoteValidDate", "CustomerNumber",
   "manufacturer_Name", "PDF", "DemoQuote"]

/-- The per-item output dict literal of `build_rows_cadre`
(src lines 526-554). -/
def cadreRow (header : Header) (filename : String) (it : Item) : Row :=
  [("ReferralManager", ostr header.ReferralManager),
   ("ReferralEmail", .vnone),
   ("Brand", .vstr "Cadre Wire Group"),
   ("QuoteNumber", ostr header.QuoteNumber),
   ("QuoteDate", ostr (normalize_date_str header.QuoteDate)),
   ("Company", ostr header.Company),
   ("FirstName", ostr header.FirstName),
   ("LastName", ostr header.LastName),
   ("ContactEmail", .vnone),
   ("ContactPhone", .vnone),
   ("Address", ostr header.Address),
   ("County", .vnone),
   ("City", ostr header.City),
   ("State", ostr header.State),
   ("ZipCode", ostr header.ZipCode),
   ("Country", ostr header.Country),
   ("item_id", .vstr it.item_id),
   ("item_desc", .vstr it.description),
   ("UnitPrice", onum (safeFloat it.unit_price)),
   ("TotalSales", onum (safeFloat it.total)),
   ("QuoteValidDate", ostr (normalize_date_str header.QuoteValidDate)),
   ("CustomerNumber", ostr header.CustomerNumber),
   ("manufacturer_Name", .vnone),
   ("PDF", .vstr filename),
   ("DemoQuote", .vnone)]

/-- The synthetic tax line item (src line 522). -/
def taxLineItem (tv : ℚ) : Item :=
  { line_no := "TAX", item_id := "Tax", qty := "1",
    unit_price := fmtMoneyComma tv, total := fmtMoneyComma tv,
    description := "" }

/-- `build_rows_cadre` (src lines 513-555): extract text, header and items;
append the synthetic tax row when the parsed tax amount's magnitude is at
least 0.005; emit one record per item with the header broadcast onto each. -/
def build_rows_cadre (pdf : PdfDoc) (filename : String) :
    Except PyExn (List Row) :=
  match extract_full_text pdf with
  | .error e => .error e
  | .ok fullText =>
    let header := extract_header_info_cadre fullText
    let items := extract_line_items_hybrid pdf
    let items :=
      match extract_tax_amount fullText with
      | some tv => if 1/200 ≤ |tv| then items ++ [taxLineItem tv] else items
      | none => items
    .ok (items.map (cadreRow header filename))

/-! ## Voelkr extraction -/

/-- `VOELKR_FIELDS` (src lines 65-78). -/
def VOELKR_FIELDS : List String :=
  ["PDF", "DocumentNumber", "DocumentDate", "CustomerName", "CustomerNumber",
   "ShipToAddress", "BillToAddress", "Subtotal", "Tax", "Total"]

/-- The configured value pattern of a field: missing/empty (skipped), an
invalid pattern (`re.error` on use), or a compiled pattern.  The Voelkr
patterns are compiled with `re.IGNORECASE | re.MULTILINE`; case-folding is
baked into the embedded `Rx` terms and no pattern uses the anchors MULTILINE
affects. -/
inductive VPat where
  | emptyPat
  | badPat
  | okPat (r : Rx)

/-- `[A-Z0-9\-]` under IGNORECASE: letters of either case, digits, dash. -/
def alnumDashC (c : Char) : Bool := isAlphaC c || isDigitC c || c = '-'

/-- `[:#]?`. -/
def optColonHash : Rx := .opt (.cls (fun c => c = ':' || c = '#'))

/-- `([\d,]+\.\d{2})` (money capture of the Voelkr amount patterns). -/
def amountGrp : Rx :=
  .grp 1 (rcat [.rep (fun c => isDigitC c || c = ',') 1 none false, rlit '.',
    .rep isDigitC 2 (some 2) false])

/-- `(?:Document|Invoice|Order)\s*(?:No\.?|Number)?\s*[:#]?\s*([A-Z0-9\-]+)`. -/
def V_DOCNUM_RX : Rx :=
  rcat [.alt (rstrI "Document") (.alt (rstrI "Invoice") (rstrI "Order")),
    rwsStar, .opt (.alt (rcat [rstrI "No", .opt (rlit '.')]) (rstrI "Number")),
    rwsStar, optColonHash, rwsStar, .grp 1 (.rep alnumDashC 1 none false)]

/-- `(?:Date)\s*[:#]?\s*(\d{1,2}[\/\-]\d{1,2}[\/\-]\d{2,4})`. -/
def V_DOCDATE_RX : Rx :=
  rcat [rstrI "Date", rwsStar, optColonHash, rwsStar,
    .grp 1 (rcat [.rep isDigitC 1 (some 2) false,
      .cls (fun c => c = '/' || c = '-'), .rep isDigitC 1 (some 2) false,
      .cls (fun c => c = '/' || c = '-'), .rep isDigitC 2 (some 4) false])]

/-- `(?:Customer|Sold To|Bill To)\s*[:#]?\s*(.+)`. -/
def V_CUSTNAME_RX : Rx :=
  rcat [.alt (rstrI "Customer") (.alt (rstrI "Sold To") (rstrI "Bill To")),
    rwsStar, optColonHash, rwsStar, .grp 1 (.rep rdotC 1 none false)]

/-- `(?:Customer\s*No\.?|Customer\s*Number)\s*[:#]?\s*([A-Z0-9\-]+)`. -/
def V_CUSTNUM_RX : Rx :=
  rcat [.alt (rcat [rstrI "Customer", rwsStar, rstrI "No", .opt (rlit '.')])
      (rcat [rstrI "Customer", rwsStar, rstrI "Number"]),
    rwsStar, optColonHash, rwsStar, .grp 1 (.rep alnumDashC 1 none false)]

/-- `(?:Subtotal)\s*[:#]?\s*\$?\s*([\d,]+\.\d{2})`. -/
def V_SUBTOTAL_RX : Rx :=
  rcat [rstrI "Subtotal", rwsStar, optColonHash, rwsStar, .opt (rlit '$'),
    rwsStar, amountGrp]

/-- `(?:Tax)\s*[:#]?\s*\$?\s*([\d,]+\.\d{2})`. -/
def V_TAX_RX : Rx :=
  rcat [rstrI "Tax", rwsStar, optColonHash, rwsStar, .opt (rlit '$'), rwsStar,
    amountGrp]

/-- `(?:Total)\s*[:#]?\s*\$?\s*([\d,]+\.\d{2})`. -/
def V_TOTAL_RX : Rx :=
  rcat [rstrI "Total", rwsStar, optColonHash, rwsStar, .opt (rlit '$'), rwsStar,
    amountGrp]

/-- `(?:Ship\s*To)\s*[:#]?\s*(.+)`. -/
def V_SHIPTO_RX : Rx :=
  rcat [rstrI "Ship", rwsStar, rstrI "To", rwsStar, optColonHash, rwsStar,
    .grp 1 (.rep rdotC 1 none false)]

/-- `(?:Bill\s*To)\s*[:#]?\s*(.+)`. -/
def V_BILLTO_RX : Rx :=
  rcat [rstrI "Bill", rwsStar, rstrI "To", rwsStar, optColonHash, rwsStar,
    .grp 1 (.rep rdotC 1 none false)]

/-- `VOELKR_REGEX_MAP` (src lines 86-98), with the dict's
`.get(field, "")` default built in. -/
def VOELKR_REGEX_MAP : String → VPat := fun f =>
  if f = "DocumentNumber" then .okPat V_DOCNUM_RX
  else if f = "DocumentDate" then .okPat V_DOCDATE_RX
  else if f = "CustomerName" then .okPat V_CUSTNAME_RX
  else if f = "CustomerNumber" then .okPat V_CUSTNUM_RX
  else if f = "Subtotal" then .okPat V_SUBTOTAL_RX
  else if f = "Tax" then .okPat V_TAX_RX
  else if f = "Total" then .okPat V_TOTAL_RX
  else if f = "ShipToAddress" then .okPat V_SHIPTO_RX
  else if f = "BillToAddress" then .okPat V_BILLTO_RX
  else .emptyPat

/-- `row[k] = v` on an ordered dict: replace in place, else append. -/
def pySetItem : Row → String → Val → Row
  | [], kk, v => [(kk, v)]
  | (k0, v0) :: rest, kk, v =>
    if k0 = kk then (kk, v) :: rest else (k0, v0) :: pySetItem rest kk v

/-- One iteration of the field loop of `build_rows_voelkr` (src lines
571-588): `"PDF"` is skipped; an empty pattern is skipped; an invalid pattern
raises `re.error`, which is caught and leaves the field as it was; otherwise
the first match's group 1 (or the whole match when no group participated, with
Python's `str(None)` for a non-participating group 1) is whitespace-collapsed,
stripped, date-normalized for fields whose name contains "date", and stored. -/
def voelkrFieldStep (rmap : String → VPat) (text : String) (row : Row)
    (field : String) : Row :=
  if field = "PDF" then row
  else
    match rmap field with
    | .emptyPat => row
    | .badPat => row
    | .okPat r =>
      match rsearch r text with
      | none => row
      | some m =>
        let value0 :=
          match m.caps with
          | [] => String.mk m.g0
          | _ =>
            match m.caps.lookup 1 with
            | some l => String.mk l
            | none => "None"
        let value1 := pyStrip (pyCollapseWs value0)
        let value2 :=
          if pyContains "date" field.toLower then
            match normalize_date_str (some value1) with
            | some s => if s ≠ "" then s else value1
            | none => value1
          else value1
        pySetItem row field (.vstr value2)

/-- The single Voelkr record for one document's text (src lines 566-590):
start with every schema field blank, store the filename under `"PDF"`, then
run the field loop. -/
def voelkrRow (rmap : String → VPat) (text : String) (filename : String) :
    Row :=
  let row : Row := VOELKR_FIELDS.map (fun c => (c, Val.vstr ""))
  let row := pySetItem row "PDF" (.vstr filename)
  VOELKR_FIELDS.foldl (voelkrFieldStep rmap text) row

/-- `build_rows_voelkr` over an explicit pattern map (the map is runtime
schema configuration; the shipped program binds `VOELKR_REGEX_MAP`). -/
def build_rows_voelkr_with (rmap : String → VPat) (pdf : PdfDoc)
    (filename : String) : Except PyExn (List Row) :=
  (extract_full_text pdf).map (fun t => [voelkrRow rmap t filename])

/-- `build_rows_voelkr` (src lines 561-590). -/
def build_rows_voelkr (pdf : PdfDoc) (filename : String) :
    Except PyExn (List Row) :=
  build_rows_voelkr_with VOELKR_REGEX_MAP pdf filename

/-! ## Router -/

/-- `parse_pdf` (src lines 596-605). -/
def parse_pdf (systemType : String) (pdf : PdfDoc) (filename : String) :
    Except PyExn (List Row × List String) :=
  if systemType = "Cadre" then
    (build_rows_cadre pdf filename).map (fun rs => (rs, []))
  else if systemType = "Voelkr" then
    let warns :=
      if VOELKR_FIELDS.length ≤ 3 then
        ["Voelkr headers look like placeholders. Replace VOELKR_FIELDS with your real CSV headers."]
      else []
    (build_rows_voelkr pdf filename).map (fun rs => (rs, warns))
  else .error (.valueError ("Unknown system type: " ++ systemType))

/-- Ordered-dict lookup (`row[f]` / `row.get(f)`), first matching key. -/
def rowGet : Row → String → Option Val
  | [], _ => none
  | (k0, v0) :: rest, f => if k0 = f then some v0 else rowGet rest f

/-!
# Claims

Each claim of the specification is settled by one theorem below (plus a
counterexample theorem when the claim as stated fails on the code, and a
witness theorem when the main theorem carries hypotheses).
-/

/-! ## C6: parsing the sample table row -/

/-- The table row of the C6 scenario. -/
def c6cells : List String := ["1", "SKU-100", "2", "$10.00", "$20.00", "Widget"]

/-- C6 counterexample: the claim says the row
`["1", "SKU-100", "2", "$10.00", "$20.00", "Widget"]` parses to
`unit_price = "10.00"` and `total = "20.00"`; in fact
`_parse_item_from_table_row` keeps the money tokens verbatim, `"$10.00"` and
`"$20.00"`, so the claimed field values are false at this input. -/
theorem C6_counterexample :
    ¬ ((parseItemFromTableRow c6cells).item_id = "SKU-100" ∧
       (parseItemFromTableRow c6cells).qty = "2" ∧
       (parseItemFromTableRow c6cells).unit_price = "10.00" ∧
       (parseItemFromTableRow c6cells).total = "20.00" ∧
       (parseItemFromTableRow c6cells).description = "Widget") := by
  decide

/-- C6 (amended): the row `["1", "SKU-100", "2", "$10.00", "$20.00",
"Widget"]` passes the item-signature test, and the table strategy parses it to
`item_id = "SKU-100"`, `qty = "2"`, `unit_price = "$10.00"`,
`total = "$20.00"` (money tokens kept verbatim, currency symbol included) and
`description = "Widget"`. -/
theorem C6_table_row_parse :
    rowHasItemSignature c6cells = true ∧
    parseItemFromTableRow c6cells =
      { line_no := "1", item_id := "SKU-100", qty := "2",
        unit_price := "$10.00", total := "$20.00",
        description := "Widget" } := by
  decide

/-! ## C5: date normalization -/

/-- C5: whenever the first loose date token of `s` has numeric fields
`(mm, dd, yy)` with `yy < 100`, `normalize_date_str` promotes the year by
adding 2000 and zero-pads to `MM/DD/YYYY`; moreover `"9/5/24"` maps to
`"09/05/2024"` and the already-normalized `"09/05/2024"` maps to itself. -/
theorem C5_normalize_date :
    (∀ s mm dd yy, dateGroupsOf s = some (mm, dd, yy) → yy < 100 →
      normalize_date_str (some s) =
        some (padZ 2 mm ++ "/" ++ padZ 2 dd ++ "/" ++ padZ 4 (yy + 2000))) ∧
    normalize_date_str (some "9/5/24") = some "09/05/2024" ∧
    normalize_date_str (some "09/05/2024") = some "09/05/2024" := by
  refine ⟨?_, by decide, by decide⟩
  intro s mm dd yy hg hlt
  have hs : s ≠ "" := by
    intro he
    subst he
    cases hg
  cases hm : rsearch DATE_LOOSE_RX s with
  | none =>
    unfold dateGroupsOf at hg
    rw [hm] at hg
    cases hg
  | some m =>
    unfold dateGroupsOf at hg
    rw [hm] at hg
    simp only [Option.map_some', Option.some.injEq, Prod.mk.injEq] at hg
    obtain ⟨h1, h2, h3⟩ := hg
    simp only [normalize_date_str]
    rw [if_neg hs, hm]
    simp only [h1, h2, h3, if_pos hlt]

/-- C5 witness: the general statement applied at `"9/5/24"`. -/
theorem C5_normalize_date_witness :
    normalize_date_str (some "9/5/24") =
      some (padZ 2 9 ++ "/" ++ padZ 2 5 ++ "/" ++ padZ 4 (24 + 2000)) :=
  C5_normalize_date.1 "9/5/24" 9 5 24 (by decide) (by decide)

/-! ## C1: the address block anchor -/

theorem addrFields_stepQuote (t : String) (h : Header) :
    addrFields (stepQuote t h) = addrFields h := by
  unfold stepQuote
  cases rsearch QUOTE_DATE_RX t <;> rfl

theorem addrFields_stepCustomer (t : String) (h : Header) :
    addrFields (stepCustomer t h) = addrFields h := by
  unfold stepCustomer
  cases rsearch CUSTOMER_RX t <;> rfl

theorem addrFields_stepContact (t : String) (h : Header) :
    addrFields (stepContact t h) = addrFields h := by
  cases hm : rsearch CONTACT_RX t with
  | none => simp only [stepContact, hm]
  | some m =>
    simp only [stepContact, hm]
    cases pySplit (pyStrip (capS 1 m)) with
    | nil => rfl
    | cons p rest => cases rest <;> rfl

theorem addrFields_stepSales (t : String) (h : Header) :
    addrFields (stepSales t h) = addrFields h := by
  unfold stepSales
  cases rsearch SALES_RX t <;> rfl

theorem addrFields_stepValid (t : String) (h : Header) :
    addrFields (stepValid t h) = addrFields h := by
  unfold stepValid
  cases rsearch VALID_DATE_RX t <;> rfl

theorem stepAddr_of_no_markers (t : String) (h : Header)
    (hc : strIndexAux ("Quoted For:").data t.data 0 = none ∨
      strIndexAux ("Quote Good Through").data t.data 0 = none) :
    stepAddr t h = h := by
  unfold stepAddr
  cases h1 : strIndexAux ("Quoted For:").data t.data 0 with
  | none =>
    cases h2 : strIndexAux ("Quote Good Through").data t.data 0 <;> rfl
  | some v1 =>
    cases h2 : strIndexAux ("Quote Good Through").data t.data 0 with
    | none => rfl
    | some v2 =>
      rw [h1] at hc
      rw [h2] at hc
      rcases hc with hc | hc <;> cases hc

/-- C1 counterexample: the claim says that a document whose text contains the
literal five-line block `Ship To / ACME CORP / 123 MAIN ST /
SPRINGFIELD IL 62701 / USA` is anchored at `"Ship To"` and yields
`Company = "ACME CORP"`; on the text consisting of exactly that block the
extraction returns no company at all (it never anchors on `"Ship To"`). -/
theorem C1_counterexample :
    pyContains "Ship To\nACME CORP\n123 MAIN ST\nSPRINGFIELD IL 62701\nUSA"
      "Ship To\nACME CORP\n123 MAIN ST\nSPRINGFIELD IL 62701\nUSA\n" = true ∧
    (extract_header_info_cadre
      "Ship To\nACME CORP\n123 MAIN ST\nSPRINGFIELD IL 62701\nUSA\n").Company ≠
      some "ACME CORP" := by
  constructor
  · decide
  · decide

/-- C1 (amended): `extract_header_info_cadre` anchors its address extraction
on the `"Quoted For:"` / `"Quote Good Through"` markers, not on `"Ship To"`:
for any text in which either marker is absent (in particular a text containing
only the five-line `Ship To` block) all six address fields — Company, Address,
City, State, ZipCode, Country — are left unresolved. -/
theorem C1_no_marker_no_address (t : String)
    (hc : strIndexAux ("Quoted For:").data t.data 0 = none ∨
      strIndexAux ("Quote Good Through").data t.data 0 = none) :
    addrFields (extract_header_info_cadre t) =
      (none, none, none, none, none, none) := by
  unfold extract_header_info_cadre
  rw [addrFields_stepValid, stepAddr_of_no_markers t _ hc,
    addrFields_stepSales, addrFields_stepContact, addrFields_stepCustomer,
    addrFields_stepQuote]
  rfl

/-- C1 witness: the amended statement applied to the five-line block itself. -/
theorem C1_no_marker_no_address_witness :
    addrFields (extract_header_info_cadre
      "Ship To\nACME CORP\n123 MAIN ST\nSPRINGFIELD IL 62701\nUSA\n") =
      (none, none, none, none, none, none) :=
  C1_no_marker_no_address
    "Ship To\nACME CORP\n123 MAIN ST\nSPRINGFIELD IL 62701\nUSA\n"
    (Or.inl (by decide))

/-! ## C4: line-item deduplication -/

theorem dedupAux_filter_of_mem (its : List Item)
    (seen : List (String × String × String)) (k : String × String × String)
    (hk : k ∈ seen) :
    (dedupAux its seen).filter (fun j => decide (itemKey j = k)) = [] := by
  induction its generalizing seen with
  | nil => rfl
  | cons it rest ih =>
    unfold dedupAux
    by_cases hmem : itemKey it ∈ seen
    · rw [if_pos hmem]
      exact ih seen hk
    · rw [if_neg hmem]
      have hne : ¬ itemKey it = k := fun he => hmem (he ▸ hk)
      rw [List.filter_cons, if_neg (by simp [hne])]
      exact ih (itemKey it :: seen) (List.mem_cons_of_mem _ hk)

theorem dedupAux_filter_of_not_mem (its : List Item)
    (seen : List (String × String × String)) (k : String × String × String)
    (hk : k ∉ seen) :
    (dedupAux its seen).filter (fun j => decide (itemKey j = k)) =
      (its.filter (fun j => decide (itemKey j = k))).take 1 := by
  induction its generalizing seen with
  | nil => rfl
  | cons it rest ih =>
    unfold dedupAux
    by_cases hmem : itemKey it ∈ seen
    · have hne : ¬ itemKey it = k := fun he => hk (he ▸ hmem)
      rw [if_pos hmem, List.filter_cons, if_neg (by simp [hne])]
      exact ih seen hk
    · rw [if_neg hmem]
      by_cases hik : itemKey it = k
      · rw [List.filter_cons, List.filter_cons, if_pos (by simp [hik]),
          if_pos (by simp [hik]),
          dedupAux_filter_of_mem rest _ k (hik ▸ List.mem_cons_self _ _)]
        rfl
      · rw [List.filter_cons, List.filter_cons, if_neg (by simp [hik]),
          if_neg (by simp [hik])]
        exact ih (itemKey it :: seen) (by
          intro hmem2
          rcases List.mem_cons.mp hmem2 with he | he
          · exact hik he.symm
          · exact hk he)

theorem dedupAux_sublist (its : List Item)
    (seen : List (String × String × String)) :
    (dedupAux its seen).Sublist its := by
  induction its generalizing seen with
  | nil => exact List.Sublist.refl []
  | cons it rest ih =>
    unfold dedupAux
    by_cases hmem : itemKey it ∈ seen
    · rw [if_pos hmem]
      exact (ih seen).cons it
    · rw [if_neg hmem]
      exact (ih (itemKey it :: seen)).cons₂ it

/-- The duplicated row of the C4 scenario. -/
def c4item : Item :=
  { line_no := "1", item_id := "ABC", qty := "", unit_price := "",
    total := "10.00", description := "" }

/-- C4: `extract_line_items_hybrid` deduplicates the raw item list (from
either strategy) by the composite key `(line_no, item_id, total)`: for every
raw list, the items with a given key that survive are exactly the first
occurrence (so at most one per key), the output is a subsequence of the input
(document order), and two identical rows with key `("1", "ABC", "10.00")`
leave exactly one entry. -/
theorem C4_dedup_by_key :
    (∀ pdf, extract_line_items_hybrid pdf = dedupItems (rawHybridItems pdf)) ∧
    (∀ its k, (dedupItems its).filter (fun j => decide (itemKey j = k)) =
      (its.filter (fun j => decide (itemKey j = k))).take 1) ∧
    (∀ its, (dedupItems its).Sublist its) ∧
    dedupItems [c4item, c4item] = [c4item] := by
  refine ⟨fun pdf => rfl, fun its k => ?_, fun its => dedupAux_sublist its [],
    by decide⟩
  exact dedupAux_filter_of_not_mem its [] k (List.not_mem_nil k)

/-! ## C2/C7: schema invariants of the assembled records -/

theorem rowKeys_pySetItem_of_mem (r : Row) (kk : String) (v : Val)
    (hk : kk ∈ rowKeys r) : rowKeys (pySetItem r kk v) = rowKeys r := by
  induction r with
  | nil => cases hk
  | cons p rest ih =>
    obtain ⟨k0, v0⟩ := p
    unfold pySetItem
    by_cases he : k0 = kk
    · rw [if_pos he, he]
      rfl
    · rw [if_neg he]
      have hk2 : kk ∈ rowKeys rest := by
        rcases List.mem_cons.mp hk with h1 | h1
        · exact absurd h1.symm he
        · exact h1
      show k0 :: rowKeys (pySetItem rest kk v) = k0 :: rowKeys rest
      rw [ih hk2]

theorem rowGet_pySetItem_ne (r : Row) (kk : String) (v : Val) (f : String)
    (hne : kk ≠ f) : rowGet (pySetItem r kk v) f = rowGet r f := by
  induction r with
  | nil =>
    show (if kk = f then some v else none) = none
    rw [if_neg hne]
  | cons p rest ih =>
    obtain ⟨k0, v0⟩ := p
    unfold pySetItem
    by_cases he : k0 = kk
    · rw [if_pos he]
      show (if kk = f then some v else rowGet rest f) =
        if k0 = f then some v0 else rowGet rest f
      rw [if_neg hne, if_neg (he ▸ hne)]
    · rw [if_neg he]
      show (if k0 = f then some v0 else rowGet (pySetItem rest kk v) f) =
        if k0 = f then some v0 else rowGet rest f
      by_cases hf : k0 = f
      · rw [if_pos hf, if_pos hf]
      · rw [if_neg hf, if_neg hf, ih]

theorem rowKeys_map_blank (fields : List String) :
    rowKeys (fields.map (fun c => (c, Val.vstr ""))) = fields := by
  induction fields with
  | nil => rfl
  | cons c rest ih =>
    show c :: rowKeys (rest.map (fun c => (c, Val.vstr ""))) = c :: rest
    rw [ih]

theorem rowGet_map_blank (fields : List String) (f : String)
    (hf : f ∈ fields) :
    rowGet (fields.map (fun c => (c, Val.vstr ""))) f = some (.vstr "") := by
  induction fields with
  | nil => cases hf
  | cons c rest ih =>
    show (if c = f then some (Val.vstr "") else
      rowGet (rest.map (fun c => (c, Val.vstr ""))) f) = some (.vstr "")
    by_cases he : c = f
    · rw [if_pos he]
    · rw [if_neg he]
      rcases List.mem_cons.mp hf with h1 | h1
      · exact absurd h1.symm he
      · exact ih h1

theorem rowKeys_voelkrFieldStep (rmap : String → VPat) (t : String)
    (row : Row) (g : String) (hg : g ∈ rowKeys row) :
    rowKeys (voelkrFieldStep rmap t row g) = rowKeys row := by
  by_cases hp : g = "PDF"
  · simp only [voelkrFieldStep, if_pos hp]
  · cases hmg : rmap g with
    | emptyPat => simp only [voelkrFieldStep, if_neg hp, hmg]
    | badPat => simp only [voelkrFieldStep, if_neg hp, hmg]
    | okPat r =>
      cases hsr : rsearch r t with
      | none => simp only [voelkrFieldStep, if_neg hp, hmg, hsr]
      | some m =>
        simp only [voelkrFieldStep, if_neg hp, hmg, hsr]
        exact rowKeys_pySetItem_of_mem row g _ hg

theorem rowGet_voelkrFieldStep_ne (rmap : String → VPat) (t : String)
    (row : Row) (g f : String) (hne : g ≠ f) :
    rowGet (voelkrFieldStep rmap t row g) f = rowGet row f := by
  by_cases hp : g = "PDF"
  · simp only [voelkrFieldStep, if_pos hp]
  · cases hmg : rmap g with
    | emptyPat => simp only [voelkrFieldStep, if_neg hp, hmg]
    | badPat => simp only [voelkrFieldStep, if_neg hp, hmg]
    | okPat r =>
      cases hsr : rsearch r t with
      | none => simp only [voelkrFieldStep, if_neg hp, hmg, hsr]
      | some m =>
        simp only [voelkrFieldStep, if_neg hp, hmg, hsr]
        exact rowGet_pySetItem_ne row g _ f hne

theorem voelkrFieldStep_skip (rmap : String → VPat) (t : String) (row : Row)
    (f : String) (hf : rmap f = .emptyPat ∨ rmap f = .badPat)
    (hnp : f ≠ "PDF") : voelkrFieldStep rmap t row f = row := by
  unfold voelkrFieldStep
  rw [if_neg hnp]
  rcases hf with hf | hf <;> rw [hf]

theorem rowKeys_voelkr_fold (rmap : String → VPat) (t : String) :
    ∀ (fields : List String) (row : Row),
      (∀ g, g ∈ fields → g ∈ rowKeys row) →
      rowKeys (List.foldl (voelkrFieldStep rmap t) row fields) = rowKeys row := by
  intro fields
  induction fields with
  | nil =>
    intro row _
    rfl
  | cons g gs ih =>
    intro row hall
    rw [List.foldl_cons]
    have hg : g ∈ rowKeys row := hall g (List.mem_cons_self g gs)
    have hstep := rowKeys_voelkrFieldStep rmap t row g hg
    have hall2 : ∀ g1, g1 ∈ gs → g1 ∈ rowKeys (voelkrFieldStep rmap t row g) := by
      intro g1 hg1
      rw [hstep]
      exact hall g1 (List.mem_cons_of_mem g hg1)
    rw [ih (voelkrFieldStep rmap t row g) hall2, hstep]

theorem rowGet_voelkr_fold_skip (rmap : String → VPat) (t : String)
    (f : String) (hf : rmap f = .emptyPat ∨ rmap f = .badPat)
    (hnp : f ≠ "PDF") :
    ∀ (fields : List String) (row : Row),
      rowGet (List.foldl (voelkrFieldStep rmap t) row fields) f =
        rowGet row f := by
  intro fields
  induction fields with
  | nil =>
    intro row
    rfl
  | cons g gs ih =>
    intro row
    rw [List.foldl_cons]
    by_cases hgf : g = f
    · subst hgf
      rw [voelkrFieldStep_skip rmap t row g hf hnp]
      exact ih row
    · rw [ih (voelkrFieldStep rmap t row g),
        rowGet_voelkrFieldStep_ne rmap t row g f hgf]

/-- C2: Cadre records carry exactly the `CADRE_COLUMNS` keys (in order), the
Voelkr record carries exactly the `VOELKR_FIELDS` keys for any configured
pattern map, an unresolved Voelkr field (no configured pattern) keeps its
blank `""` value, and an unresolved Cadre header field (here: `Company`)
yields the blank `None` cell; no record has keys outside its schema. -/
theorem C2_schema_completeness :
    (∀ pdf fn rows, build_rows_cadre pdf fn = .ok rows →
      ∀ r, r ∈ rows → rowKeys r = CADRE_COLUMNS) ∧
    (∀ rmap t fn, rowKeys (voelkrRow rmap t fn) = VOELKR_FIELDS) ∧
    (∀ rmap t fn f, f ∈ VOELKR_FIELDS → f ≠ "PDF" → rmap f = .emptyPat →
      rowGet (voelkrRow rmap t fn) f = some (.vstr "")) ∧
    (∀ header fn it, header.Company = none →
      rowGet (cadreRow header fn it) "Company" = some Val.vnone) := by
  refine ⟨?_, ?_, ?_, ?_⟩
  · intro pdf fn rows hb r hr
    cases hft : extract_full_text pdf with
    | error e =>
      rw [build_rows_cadre, hft] at hb
      cases hb
    | ok t =>
      rw [build_rows_cadre, hft] at hb
      simp only [Except.ok.injEq] at hb
      rw [← hb] at hr
      obtain ⟨it, _, rfl⟩ := List.mem_map.mp hr
      rfl
  · intro rmap t fn
    have hinit := rowKeys_map_blank VOELKR_FIELDS
    have hpdfmem : "PDF" ∈ rowKeys (VOELKR_FIELDS.map (fun c => (c, Val.vstr ""))) := by
      rw [hinit]
      decide
    have hset := rowKeys_pySetItem_of_mem
      (VOELKR_FIELDS.map (fun c => (c, Val.vstr ""))) "PDF" (.vstr fn) hpdfmem
    have hall : ∀ g, g ∈ VOELKR_FIELDS →
        g ∈ rowKeys (pySetItem (VOELKR_FIELDS.map (fun c => (c, Val.vstr "")))
          "PDF" (.vstr fn)) := by
      intro g hg
      rw [hset, hinit]
      exact hg
    rw [voelkrRow, rowKeys_voelkr_fold rmap t VOELKR_FIELDS _ hall, hset, hinit]
  · intro rmap t fn f hfm hnp hf
    rw [voelkrRow, rowGet_voelkr_fold_skip rmap t f (Or.inl hf) hnp,
      rowGet_pySetItem_ne _ _ _ _ (Ne.symm hnp), rowGet_map_blank _ _ hfm]
  · intro header fn it h
    have hred : rowGet (cadreRow header fn it) "Company" =
        some (ostr header.Company) := rfl
    rw [hred, h]
    rfl

/-- C2 witness: with an all-empty pattern map, the Voelkr record of the empty
text keeps the full schema and a blank `"Tax"` value, and a Cadre record built
from an empty header has a `None` company cell. -/
theorem C2_schema_completeness_witness :
    rowKeys (voelkrRow (fun _ => VPat.emptyPat) "" "f.pdf") = VOELKR_FIELDS ∧
    rowGet (voelkrRow (fun _ => VPat.emptyPat) "" "f.pdf") "Tax" =
      some (.vstr "") ∧
    rowGet (cadreRow {} "f.pdf"
      { line_no := "", item_id := "", qty := "", unit_price := "", total := "",
        description := "" }) "Company" = some Val.vnone :=
  ⟨C2_schema_completeness.2.1 (fun _ => VPat.emptyPat) "" "f.pdf",
    C2_schema_completeness.2.2.1 (fun _ => VPat.emptyPat) "" "f.pdf" "Tax"
      (by decide) (by decide) rfl,
    C2_schema_completeness.2.2.2 {} "f.pdf"
      { line_no := "", item_id := "", qty := "", unit_price := "", total := "",
        description := "" } rfl⟩

theorem foldl_congr_fn {α β : Type} (f g : α → β → α)
    (h : ∀ a b, f a b = g a b) :
    ∀ (l : List β) (a : α), List.foldl f a l = List.foldl g a l := by
  intro l
  induction l with
  | nil =>
    intro a
    rfl
  | cons b bs ih =>
    intro a
    rw [List.foldl_cons, List.foldl_cons, h a b, ih (g a b)]

/-- C7: a field whose configured value pattern is an invalid regular
expression is treated exactly like an unconfigured field — the whole record is
the one the map with that pattern removed produces (so all remaining fields
are still processed and no exception escapes), and the field itself stays
blank. -/
theorem C7_bad_pattern_skipped (rmap : String → VPat) (f : String)
    (hbad : rmap f = .badPat) :
    (∀ t fn, voelkrRow rmap t fn =
      voelkrRow (fun g => if g = f then VPat.emptyPat else rmap g) t fn) ∧
    (∀ t fn, f ∈ VOELKR_FIELDS → f ≠ "PDF" →
      rowGet (voelkrRow rmap t fn) f = some (.vstr "")) := by
  constructor
  · intro t fn
    have hstep : ∀ (row : Row) (g : String),
        voelkrFieldStep rmap t row g =
        voelkrFieldStep (fun g' => if g' = f then VPat.emptyPat else rmap g') t
          row g := by
      intro row g
      by_cases hgp : g = "PDF"
      · simp only [voelkrFieldStep, if_pos hgp]
      · by_cases hgf : g = f
        · subst hgf
          simp only [voelkrFieldStep, if_neg hgp, hbad, eq_self_iff_true,
            if_true]
        · simp only [voelkrFieldStep, if_neg hgp, if_neg hgf]
    unfold voelkrRow
    exact foldl_congr_fn _ _ hstep VOELKR_FIELDS _
  · intro t fn hfm hnp
    rw [voelkrRow, rowGet_voelkr_fold_skip rmap t f (Or.inr hbad) hnp,
      rowGet_pySetItem_ne _ _ _ _ (Ne.symm hnp), rowGet_map_blank _ _ hfm]

/-- C7 witness: the statement applied to a map whose `"Tax"` pattern is
invalid, on the text `"Tax 1.00"`. -/
theorem C7_bad_pattern_skipped_witness :
    voelkrRow (fun g => if g = "Tax" then VPat.badPat else VPat.emptyPat)
        "Tax 1.00" "f.pdf" =
      voelkrRow (fun g => if g = "Tax" then VPat.emptyPat else
        (fun g' => if g' = "Tax" then VPat.badPat else VPat.emptyPat) g)
        "Tax 1.00" "f.pdf" ∧
    rowGet (voelkrRow (fun g => if g = "Tax" then VPat.badPat else
      VPat.emptyPat) "Tax 1.00" "f.pdf") "Tax" = some (.vstr "") :=
  ⟨(C7_bad_pattern_skipped
      (fun g => if g = "Tax" then VPat.badPat else VPat.emptyPat) "Tax"
      (if_pos rfl)).1 "Tax 1.00" "f.pdf",
    (C7_bad_pattern_skipped
      (fun g => if g = "Tax" then VPat.badPat else VPat.emptyPat) "Tax"
      (if_pos rfl)).2 "Tax 1.00" "f.pdf" (by decide) (by decide)⟩

/-! ## C3: the synthetic tax row -/

theorem fmtMoneyComma_cents (c : Nat) :
    fmtMoneyComma ((c : ℚ) / 100) = fmtCents c := by
  unfold fmtMoneyComma
  congr 1
  rw [div_mul_cancel₀ ((c : ℚ)) (by norm_num : (100 : ℚ) ≠ 0),
    Rat.num_natCast, Int.toNat_natCast]

/-- The magnitude test of the tax rule, in cents: `abs(v) >= 0.005` holds for
`v = cents / 100` exactly when at least one cent was parsed. -/
theorem tax_threshold_cents (c : Nat) :
    ((1 : ℚ) / 200 ≤ |(c : ℚ) / 100|) ↔ 1 ≤ c := by
  rw [abs_of_nonneg (by positivity),
    div_le_div_iff₀ (by norm_num) (by norm_num)]
  constructor
  · intro h
    rcases Nat.eq_zero_or_pos c with rfl | hpos
    · norm_num at h
    · exact hpos
  · intro h
    have h1 : (1 : ℚ) ≤ (c : ℚ) := by exact_mod_cast h
    nlinarith

/-- The synthetic tax item for a parsed amount of 4.98. -/
def c3TaxItem : Item :=
  { line_no := "TAX", item_id := "Tax", qty := "1", unit_price := "4.98",
    total := "4.98", description := "" }

/-- C3: for a document whose text extracted as `t`, a parsed tax amount of
zero cents (magnitude below 0.005, e.g. `"0.00"`) yields no synthetic tax row
— the output is exactly the extracted items — while a parsed amount of 498
cents (4.98) appends exactly one synthetic item with id `"Tax"`, quantity
`"1"`, empty description, unit price and total both `"4.98"`, after the
extracted items. -/
theorem C3_tax_row_policy (pdf : PdfDoc) (fn t : String)
    (hft : extract_full_text pdf = .ok t) :
    (extract_tax_amount t = (extract_tax_cents t).map (fun c => (c : ℚ) / 100)) ∧
    (∀ c, extract_tax_cents t = some c → c = 0 →
      build_rows_cadre pdf fn =
        .ok ((extract_line_items_hybrid pdf).map
          (cadreRow (extract_header_info_cadre t) fn))) ∧
    (extract_tax_cents t = some 498 →
      build_rows_cadre pdf fn =
        .ok ((extract_line_items_hybrid pdf ++ [c3TaxItem]).map
          (cadreRow (extract_header_info_cadre t) fn))) := by
  refine ⟨rfl, ?_, ?_⟩
  · intro c hc hc0
    subst hc0
    have htax : extract_tax_amount t = some (((0 : Nat) : ℚ) / 100) := by
      rw [extract_tax_amount, hc]
      rfl
    simp only [build_rows_cadre, hft, htax]
    rw [if_neg ((not_congr (tax_threshold_cents 0)).mpr (by decide))]
  · intro hc
    have htax : extract_tax_amount t = some (((498 : Nat) : ℚ) / 100) := by
      rw [extract_tax_amount, hc]
      rfl
    have hitem : taxLineItem (((498 : Nat) : ℚ) / 100) = c3TaxItem := by
      unfold taxLineItem
      rw [fmtMoneyComma_cents 498]
      decide
    simp only [build_rows_cadre, hft, htax]
    rw [if_pos ((tax_threshold_cents 498).mpr (by decide)), hitem]

/-- The one-page document whose text is `"Tax 0.00"`. -/
def pdfTax0 : PdfDoc :=
  [{ textLayout := .ok (some "Tax 0.00"), textPlain := .ok none,
     tablesLines := some [], tablesText := some [], words := [] }]

/-- The one-page document whose text is `"Tax 4.98"`. -/
def pdfTax498 : PdfDoc :=
  [{ textLayout := .ok (some "Tax 4.98"), textPlain := .ok none,
     tablesLines := some [], tablesText := some [], words := [] }]

/-- C3 witness: both branches applied to concrete one-page documents with tax
amounts `0.00` and `4.98`. -/
theorem C3_tax_row_policy_witness :
    build_rows_cadre pdfTax0 "f.pdf" =
      .ok ((extract_line_items_hybrid pdfTax0).map
        (cadreRow (extract_header_info_cadre "Tax 0.00\n") "f.pdf")) ∧
    build_rows_cadre pdfTax498 "f.pdf" =
      .ok ((extract_line_items_hybrid pdfTax498 ++ [c3TaxItem]).map
        (cadreRow (extract_header_info_cadre "Tax 4.98\n") "f.pdf")) :=
  ⟨(C3_tax_row_policy pdfTax0 "f.pdf" "Tax 0.00\n" rfl).2.1 0 (by decide) rfl,
    (C3_tax_row_policy pdfTax498 "f.pdf" "Tax 4.98\n" rfl).2.2 (by decide)⟩

/-! ## C10: zero items give zero rows -/

/-- C10: when the hybrid extraction finds no line items and no tax amount of
magnitude at least 0.005 is parsed, `build_rows_cadre` returns the empty list,
so no header field reaches any output record of that document. -/
theorem C10_no_items_no_rows (pdf : PdfDoc) (fn t : String)
    (hft : extract_full_text pdf = .ok t)
    (hit : extract_line_items_hybrid pdf = [])
    (htax : extract_tax_amount t = none ∨
      ∃ v, extract_tax_amount t = some v ∧ |v| < 1/200) :
    build_rows_cadre pdf fn = .ok [] := by
  rcases htax with htax | ⟨v, htax, hlt⟩
  · simp only [build_rows_cadre, hft, htax, hit, List.map_nil]
  · simp only [build_rows_cadre, hft, htax, hit]
    rw [if_neg (not_le.mpr hlt)]
    rfl

/-- C10 witness: the empty document has no items, no tax, and no rows. -/
theorem C10_no_items_no_rows_witness : build_rows_cadre [] "f.pdf" = .ok [] :=
  C10_no_items_no_rows [] "f.pdf" "" rfl rfl (Or.inl rfl)

/-! ## C8: per-page extraction failures -/

/-- A page on which `extract_full_text` does not raise: its layout-mode call
either returns, or raises `TypeError` with the plain call returning. -/
def pageGoodB (p : Page) : Bool :=
  match p.textLayout with
  | .ok _ => true
  | .raisesTypeError =>
    match p.textPlain with
    | .ok _ => true
    | _ => false
  | .raisesOther => false

/-- The text a good page contributes (empty when the page yields no text). -/
def pageTextGood (p : Page) : String :=
  match p.textLayout with
  | .ok t => t.getD ""
  | .raisesTypeError =>
    match p.textPlain with
    | .ok t => t.getD ""
    | _ => ""
  | .raisesOther => ""

/-- The concatenated document text (each page's text plus a newline). -/
def textConcat : PdfDoc → String
  | [] => ""
  | p :: ps => pageTextGood p ++ "\n" ++ textConcat ps

/-- C8 counterexample: the claim says a page whose text cannot be parsed
contributes empty text and extraction never raises; a one-page document whose
layout-mode extraction raises a non-`TypeError` exception makes
`extract_full_text` raise instead. -/
theorem C8_counterexample :
    extract_full_text
      [{ textLayout := .raisesOther, textPlain := .ok none,
         tablesLines := some [], tablesText := some [], words := [] }] =
      .error .otherExn := rfl

/-- C8 (amended): `extract_full_text` only shields the layout-mode
`TypeError` (falling back to the plain call) and `None` texts (contributing
empty text); whenever every page is good in that sense the whole document text
is returned, but any other per-page exception propagates (see the
counterexample). -/
theorem C8_page_text_fallback (pdf : PdfDoc)
    (h : ∀ p, p ∈ pdf → pageGoodB p = true) :
    extract_full_text pdf = .ok (textConcat pdf) := by
  induction pdf with
  | nil => rfl
  | cons p ps ih =>
    have hp := h p (List.mem_cons_self p ps)
    have hps := ih (fun q hq => h q (List.mem_cons_of_mem p hq))
    have hpt : pageText p = .ok (pageTextGood p) := by
      cases hl : p.textLayout with
      | ok t => simp [pageText, pageTextGood, hl]
      | raisesTypeError =>
        cases hpl : p.textPlain with
        | ok t => simp [pageText, pageTextGood, hl, hpl]
        | raisesTypeError => simp [pageGoodB, hl, hpl] at hp
        | raisesOther => simp [pageGoodB, hl, hpl] at hp
      | raisesOther => simp [pageGoodB, hl] at hp
    simp only [extract_full_text, hpt, hps, textConcat]

/-- C8 witness: a page needing the plain-mode fallback and a page with no
text still produce the concatenated document text. -/
theorem C8_page_text_fallback_witness :
    extract_full_text
      [{ textLayout := .raisesTypeError, textPlain := .ok (some "hello"),
         tablesLines := some [], tablesText := some [], words := [] },
       { textLayout := .ok none, textPlain := .ok none,
         tablesLines := some [], tablesText := some [], words := [] }] =
      .ok (textConcat
        [{ textLayout := .raisesTypeError, textPlain := .ok (some "hello"),
           tablesLines := some [], tablesText := some [], words := [] },
         { textLayout := .ok none, textPlain := .ok none,
           tablesLines := some [], tablesText := some [], words := [] }]) :=
  C8_page_text_fallback _ (by decide)

/-! ## C9: the system-type router -/

theorem pageText_error_kind (p : Page) (e : PyExn)
    (he : pageText p = .error e) : e = .typeError ∨ e = .otherExn := by
  cases hl : p.textLayout with
  | ok t =>
    rw [pageText, hl] at he
    cases he
  | raisesTypeError =>
    cases hpl : p.textPlain with
    | ok t =>
      rw [pageText, hl] at he
      rw [hpl] at he
      cases he
    | raisesTypeError =>
      rw [pageText, hl] at he
      rw [hpl] at he
      cases he
      exact Or.inl rfl
    | raisesOther =>
      rw [pageText, hl] at he
      rw [hpl] at he
      cases he
      exact Or.inr rfl
  | raisesOther =>
    rw [pageText, hl] at he
    cases he
    exact Or.inr rfl

theorem extract_full_text_error_kind (pdf : PdfDoc) (e : PyExn)
    (he : extract_full_text pdf = .error e) :
    e = .typeError ∨ e = .otherExn := by
  induction pdf with
  | nil => cases he
  | cons p ps ih =>
    cases hpt : pageText p with
    | error e1 =>
      rw [extract_full_text, hpt] at he
      cases he
      exact pageText_error_kind p e hpt
    | ok t =>
      cases hex : extract_full_text ps with
      | error e2 =>
        rw [extract_full_text, hpt, hex] at he
        cases he
        exact ih hex
      | ok rest =>
        rw [extract_full_text, hpt, hex] at he
        cases he

theorem build_rows_cadre_error (pdf : PdfDoc) (fn : String) (e : PyExn)
    (he : build_rows_cadre pdf fn = .error e) :
    extract_full_text pdf = .error e := by
  cases hft : extract_full_text pdf with
  | error e1 =>
    rw [build_rows_cadre, hft] at he
    cases he
    rfl
  | ok t =>
    rw [build_rows_cadre, hft] at he
    cases he

theorem build_rows_voelkr_error (pdf : PdfDoc) (fn : String) (e : PyExn)
    (he : build_rows_voelkr pdf fn = .error e) :
    extract_full_text pdf = .error e := by
  cases hft : extract_full_text pdf with
  | error e1 =>
    rw [build_rows_voelkr, build_rows_voelkr_with, hft] at he
    cases he
    rfl
  | ok t =>
    rw [build_rows_voelkr, build_rows_voelkr_with, hft] at he
    cases he

/-- C9: for any system type other than `"Cadre"` and `"Voelkr"`, `parse_pdf`
raises `ValueError ("Unknown system type: ...")` without consulting the PDF at
all (the result is the same error for every document); for the two known
system types no `ValueError` is ever produced. -/
theorem C9_unknown_system_type :
    (∀ sys pdf fn, sys ≠ "Cadre" → sys ≠ "Voelkr" →
      parse_pdf sys pdf fn =
        .error (.valueError ("Unknown system type: " ++ sys))) ∧
    (∀ pdf fn msg, parse_pdf "Cadre" pdf fn ≠ .error (.valueError msg) ∧
      parse_pdf "Voelkr" pdf fn ≠ .error (.valueError msg)) := by
  constructor
  · intro sys pdf fn h1 h2
    simp only [parse_pdf, if_neg h1, if_neg h2]
  · intro pdf fn msg
    constructor
    · intro hcontra
      rw [parse_pdf, if_pos rfl] at hcontra
      cases hb : build_rows_cadre pdf fn with
      | ok rs =>
        rw [hb] at hcontra
        simp only [Except.map] at hcontra
        cases hcontra
      | error e =>
        rw [hb] at hcontra
        simp only [Except.map, Except.error.injEq] at hcontra
        subst hcontra
        rcases extract_full_text_error_kind pdf _
          (build_rows_cadre_error pdf fn _ hb) with h | h <;> cases h
    · intro hcontra
      rw [parse_pdf, if_neg (by decide : ¬ ("Voelkr" = "Cadre")),
        if_pos rfl] at hcontra
      cases hb : build_rows_voelkr pdf fn with
      | ok rs =>
        rw [hb] at hcontra
        simp only [Except.map] at hcontra
        cases hcontra
      | error e =>
        rw [hb] at hcontra
        simp only [Except.map, Except.error.injEq] at hcontra
        subst hcontra
        rcases extract_full_text_error_kind pdf _
          (build_rows_voelkr_error pdf fn _ hb) with h | h <;> cases h

/-- C9 witness: an unknown system type `"Foo"` on the empty document, and the
known types raising no `ValueError` there. -/
theorem C9_unknown_system_type_witness :
    parse_pdf "Foo" [] "f.pdf" =
      .error (.valueError ("Unknown system type: " ++ "Foo")) ∧
    parse_pdf "Cadre" [] "f.pdf" ≠ .error (.valueError "boom") :=
  ⟨C9_unknown_system_type.1 "Foo" [] "f.pdf" (by decide) (by decide),
    (C9_unknown_system_type.2 [] "f.pdf" "boom").1⟩

end Volkr
